import Mathlib

/-! k8s-cluster-upgrade-tool: configuration validation, lookups and image parsing.

A shallow embedding of `config/config.go`, and a model of the image parser of
`internal/api/k8s`.  Go strings are Lean `String`s, a Go `error` is an `Option String`
holding the message passed to `errors.New` (`none` is `nil`), and a `for ... range`
loop over a slice is a left fold (or a structural recursion when the loop body
returns early).
-/

namespace Config

/-- The struct `K8sObject`: name and type of a Kubernetes object. -/
structure K8sObject where
  Name : String
  Type_ : String
  deriving DecidableEq, Repr

/-- The struct `ClusterListConfiguration`: one element of `clusterlist`. -/
structure ClusterListConfiguration where
  Name : String
  AwsRegion : String
  AwsAccount : String
  AwsNodeObject : K8sObject
  ClusterAutoscalerObject : K8sObject
  CoreDnsObject : K8sObject
  KubeProxyObject : K8sObject
  deriving DecidableEq, Repr

/-- The struct `ComponentVersionConfigurations`: the four target versions. -/
structure ComponentVersionConfigurations where
  AwsNode : String
  ClusterAutoscaler : String
  CoreDns : String
  KubeProxy : String
  deriving DecidableEq, Repr

/-- The struct `Configurations`. -/
structure Configurations where
  Components : ComponentVersionConfigurations
  ClusterList : List ClusterListConfiguration
  deriving DecidableEq, Repr

/-- The condition of the `if` inside the loop of `IsClusterListConfigurationValid`:
some one of the eleven strings of the descriptor is empty. -/
def clusterHasEmptyField (cluster : ClusterListConfiguration) : Bool :=
  cluster.Name == "" || cluster.AwsRegion == "" || cluster.AwsAccount == "" ||
    cluster.AwsNodeObject.Name == "" || cluster.AwsNodeObject.Type_ == "" ||
    cluster.ClusterAutoscalerObject.Name == "" || cluster.ClusterAutoscalerObject.Type_ == "" ||
    cluster.CoreDnsObject.Name == "" || cluster.CoreDnsObject.Type_ == "" ||
    cluster.KubeProxyObject.Name == "" || cluster.KubeProxyObject.Type_ == ""

/-- One iteration of the loop of `IsClusterListConfigurationValid`: the body assigns
`valid = false` when the `if` fires and leaves `valid` alone otherwise. -/
def validLoopBody (valid : Bool) (cluster : ClusterListConfiguration) : Bool :=
  if clusterHasEmptyField cluster then false else valid

/-- `Configurations.IsClusterListConfigurationValid`: `valid` starts as `true`, every
element of the list is visited in order, and `valid` is returned after the loop. -/
def IsClusterListConfigurationValid (c : Configurations) : Bool :=
  c.ClusterList.foldl validLoopBody true

/-- `Configurations.IsComponentVersionConfigurationsValid`. -/
def IsComponentVersionConfigurationsValid (c : Configurations) : Bool :=
  let valid := true
  if c.Components.CoreDns == "" || c.Components.AwsNode == "" ||
      c.Components.ClusterAutoscaler == "" || c.Components.KubeProxy == "" then
    false
  else
    valid

/-- One iteration of the loop of `IsClusterNameValid`: the body assigns
`contains = true` when the names are equal and leaves `contains` alone otherwise. -/
def containsLoopBody (clusterName : String) (contains : Bool)
    (cluster : ClusterListConfiguration) : Bool :=
  if cluster.Name == clusterName then true else contains

/-- `Configurations.IsClusterNameValid`: `contains` starts as `false`, every element
is visited in order, and `contains` is returned after the loop. -/
def IsClusterNameValid (c : Configurations) (clusterName : String) : Bool :=
  c.ClusterList.foldl (containsLoopBody clusterName) false

/-- The loop of `GetAwsAccountAndRegionForCluster`, which returns from inside the loop
at the first matching element; the statement after the loop is the `[]` case. -/
def getAwsAccountAndRegionLoop (clusterName : String) :
    List ClusterListConfiguration → String × String × Option String
  | [] => ("", "", some "no awsAccount and awsRegion was found for the passed clusterName")
  | cluster :: rest =>
    if cluster.Name == clusterName then
      (cluster.AwsAccount, cluster.AwsRegion, none)
    else
      getAwsAccountAndRegionLoop clusterName rest

/-- `Configurations.GetAwsAccountAndRegionForCluster`: the triple
`(awsAccount, awsRegion, err)`. -/
def GetAwsAccountAndRegionForCluster (c : Configurations) (clusterName : String) :
    String × String × Option String :=
  getAwsAccountAndRegionLoop clusterName c.ClusterList

/-- `Configurations.ValidatePassedComponentVersions`: the `switch` on `componentName`
tries its cases in order; a case whose `if` does not fire falls out of the `switch`
to the final `return nil`. -/
def ValidatePassedComponentVersions (c : Configurations)
    (componentName componentVersion : String) : Option String :=
  if componentName = "aws-node" then
    if componentVersion ≠ c.Components.AwsNode then
      some "aws-node component version passed doesn't match the version in config, please check the value in config file"
    else none
  else if componentName = "cluster-autoscaler" then
    if componentVersion ≠ c.Components.ClusterAutoscaler then
      some "cluster-autoscaler component version passed doesn't match the version in config, please check the value in config file"
    else none
  else if componentName = "kube-proxy" then
    if componentVersion ≠ c.Components.KubeProxy then
      some "kube-proxy component version passed doesn't match the version in config, please check the value in config file"
    else none
  else if componentName = "coredns" then
    if componentVersion ≠ c.Components.CoreDns then
      some "coredns component version passed doesn't match the version in config, please check the value in config file"
    else none
  else
    some "please pass a valid component name from this list [coredns, cluster-autoscaler, kube-proxy, aws-node]"

/-- All eleven strings of a descriptor are non-empty. -/
def AllFieldsNonEmpty (d : ClusterListConfiguration) : Prop :=
  d.Name ≠ "" ∧ d.AwsRegion ≠ "" ∧ d.AwsAccount ≠ "" ∧
    d.AwsNodeObject.Name ≠ "" ∧ d.AwsNodeObject.Type_ ≠ "" ∧
    d.ClusterAutoscalerObject.Name ≠ "" ∧ d.ClusterAutoscalerObject.Type_ ≠ "" ∧
    d.CoreDnsObject.Name ≠ "" ∧ d.CoreDnsObject.Type_ ≠ "" ∧
    d.KubeProxyObject.Name ≠ "" ∧ d.KubeProxyObject.Type_ ≠ ""

instance (d : ClusterListConfiguration) : Decidable (AllFieldsNonEmpty d) := by
  unfold AllFieldsNonEmpty; infer_instance

/-- A fully populated descriptor, as in the tests of `config_test.go`. -/
def fullCluster (name region account : String) : ClusterListConfiguration :=
  { Name := name, AwsRegion := region, AwsAccount := account,
    AwsNodeObject := ⟨"aws-node", "daemonset"⟩,
    ClusterAutoscalerObject := ⟨"cluster-autoscaler", "deployment"⟩,
    CoreDnsObject := ⟨"coredns", "deployment"⟩,
    KubeProxyObject := ⟨"kube-proxy", "daemonset"⟩ }

/-- The zero value of `ComponentVersionConfigurations`. -/
def noComponents : ComponentVersionConfigurations := ⟨"", "", "", ""⟩

/-- Second test configuration of `config_test.go`: `CoreDnsObject.Type` of the second
cluster is the empty string. -/
def testConfigEmptyType : Configurations :=
  { Components := noComponents,
    ClusterList :=
      [fullCluster "cluster1" "region" "account",
       { fullCluster "cluster2" "region" "account" with CoreDnsObject := ⟨"coredns", ""⟩ }] }

/-- Third test configuration of `config_test.go`: the second cluster has no
`CoreDnsObject` at all, so the field holds the zero value. -/
def testConfigMissingObject : Configurations :=
  { Components := noComponents,
    ClusterList :=
      [fullCluster "cluster1" "region" "account",
       { fullCluster "cluster2" "region" "account" with CoreDnsObject := ⟨"", ""⟩ }] }

/-- The message of the error returned after the loop of
`GetAwsAccountAndRegionForCluster`. -/
def notFoundMessage : String :=
  "no awsAccount and awsRegion was found for the passed clusterName"

/-- The message of the `default` case of `ValidatePassedComponentVersions`. -/
def invalidComponentMessage : String :=
  "please pass a valid component name from this list [coredns, cluster-autoscaler, kube-proxy, aws-node]"

/-- The text shared by the four mismatch messages of
`ValidatePassedComponentVersions`, after the component name. -/
def mismatchSuffix : String :=
  " component version passed doesn't match the version in config, please check the value in config file"

/-- The four `case` literals of the `switch` in `ValidatePassedComponentVersions`. -/
def componentNames : List String :=
  ["aws-node", "cluster-autoscaler", "kube-proxy", "coredns"]

/-- A descriptor with name, region and account only, as in the lookup tests of
`config_test.go`; the four objects hold the zero value. -/
def bareCluster (name region account : String) : ClusterListConfiguration :=
  { Name := name, AwsRegion := region, AwsAccount := account,
    AwsNodeObject := ⟨"", ""⟩, ClusterAutoscalerObject := ⟨"", ""⟩,
    CoreDnsObject := ⟨"", ""⟩, KubeProxyObject := ⟨"", ""⟩ }

/-- The configuration of the lookup tests of `config_test.go`. -/
def testConfigLookup : Configurations :=
  { Components := noComponents,
    ClusterList := [bareCluster "cluster1" "region1" "account1",
                    bareCluster "cluster2" "region2" "account2"] }

/-- Two descriptors share the name `cluster1` and differ in account and region. -/
def testConfigDuplicate : Configurations :=
  { Components := noComponents,
    ClusterList := [bareCluster "cluster0" "region0" "account0",
                    bareCluster "cluster1" "region1" "account1",
                    bareCluster "cluster1" "region2" "account2"] }

/-- The configuration of `TestConfigurations_ValidatePassedComponentVersions`. -/
def testConfigVersions : Configurations :=
  { Components := ⟨"rightvalue", "rightvalue", "rightvalue", "rightvalue"⟩,
    ClusterList := [] }

/-- The short-circuiting variant that the spec allows for the validation of the cluster
list: it answers `false` at the first descriptor with an empty field, and `true` when the
list ends. -/
def isClusterListValidShortCircuit : List ClusterListConfiguration → Bool
  | [] => true
  | cluster :: rest =>
    if clusterHasEmptyField cluster then false else isClusterListValidShortCircuit rest

/-- The short-circuiting variant of the name lookup: it answers `true` at the first
descriptor whose name matches, and `false` when the list ends. -/
def isClusterNameValidShortCircuit (clusterName : String) :
    List ClusterListConfiguration → Bool
  | [] => false
  | cluster :: rest =>
    if cluster.Name == clusterName then true
    else isClusterNameValidShortCircuit clusterName rest

/-- A cluster list in another order than `testConfigLookup`, for the same components. -/
def testConfigLookupSwapped : Configurations :=
  { Components := noComponents,
    ClusterList := [bareCluster "cluster2" "region2" "account2",
                    bareCluster "cluster1" "region1" "account1"] }

/-- Two configurations that agree on the `kube-proxy` version only. -/
def testConfigVersionsOther : Configurations :=
  { Components := ⟨"other-aws-node", "other-autoscaler", "other-coredns", "rightvalue"⟩,
    ClusterList := [bareCluster "cluster1" "region1" "account1"] }

/-- The constant `FileName`. -/
def FileName : String := "config"

/-- The constant `FileType`. -/
def FileType : String := "yaml"

/-- The constant `FilePath`. -/
def FilePath : String := "$HOME/.k8s-cluster-upgrade-tool"

/-- The three named results of `FileMetadata`, in the order in which its signature
`(fileName, filePath, fileType string)` declares them. -/
structure FileMetadataResults where
  fileName : String
  filePath : String
  fileType : String
  deriving DecidableEq, Repr

/-- `FileMetadata`: the statement `return FileName, FileType, FilePath` gives its three
values to the declared results by position. -/
def FileMetadata : FileMetadataResults := ⟨FileName, FileType, FilePath⟩

/-- The results of `FileMetadata` as a caller receives them, by position, as in
`gotFileName, gotFileType, gotFilePath := FileMetadata()`. -/
def FileMetadataResults.byPosition (r : FileMetadataResults) : String × String × String :=
  (r.fileName, r.filePath, r.fileType)

/-- The keys `name` and `type` of one object in the configuration file: each holds a
string or is absent (`none`). -/
structure K8sObjectDocument where
  Name : Option String
  Type_ : Option String
  deriving DecidableEq, Repr

/-- One element of the key `clusterlist` in the configuration file: each string is
present or absent; an object key that is absent has both its strings absent. -/
structure ClusterDocument where
  Name : Option String
  AwsRegion : Option String
  AwsAccount : Option String
  AwsNodeObject : K8sObjectDocument
  ClusterAutoscalerObject : K8sObjectDocument
  CoreDnsObject : K8sObjectDocument
  KubeProxyObject : K8sObjectDocument
  deriving DecidableEq, Repr

/-- The content of the configuration file as viper holds it once `ReadInConfig` has
succeeded.  Each of the four keys `components.aws-node`, `components.cluster-autoscaler`,
`components.coredns` and `components.kube-proxy` holds a string or is absent (`none`,
for which `viper.Get` gives `nil`); `ClusterList` holds the elements of the key
`clusterlist`, in order. -/
structure ConfigDocument where
  AwsNode : Option String
  ClusterAutoscaler : Option String
  CoreDns : Option String
  KubeProxy : Option String
  ClusterList : List ClusterDocument
  deriving DecidableEq, Repr

/-- What the calls of `Read` into the viper library yield: `ReadInConfig` fails with a
`ConfigFileNotFoundError`, or with another error, or it succeeds and `Unmarshal` fails
(leaving some value `after` in the global), or both succeed on a document. -/
inductive ConfigFile where
  | notFound
  | readError
  | unmarshalError (after : Configurations)
  | decoded (doc : ConfigDocument)
  deriving DecidableEq, Repr

/-- The zero value of `ClusterListConfiguration`. -/
def zeroCluster : ClusterListConfiguration :=
  { Name := "", AwsRegion := "", AwsAccount := "",
    AwsNodeObject := ⟨"", ""⟩, ClusterAutoscalerObject := ⟨"", ""⟩,
    CoreDnsObject := ⟨"", ""⟩, KubeProxyObject := ⟨"", ""⟩ }

/-- Decoding of one object into the value the global already holds: a key that is
present overwrites its string, an absent one leaves it. -/
def decodeK8sObject (previous : K8sObject) (doc : K8sObjectDocument) : K8sObject :=
  { Name := doc.Name.getD previous.Name, Type_ := doc.Type_.getD previous.Type_ }

/-- Decoding of one element of `clusterlist` into the element the global already holds
at that index. -/
def decodeCluster (previous : ClusterListConfiguration) (doc : ClusterDocument) :
    ClusterListConfiguration :=
  { Name := doc.Name.getD previous.Name,
    AwsRegion := doc.AwsRegion.getD previous.AwsRegion,
    AwsAccount := doc.AwsAccount.getD previous.AwsAccount,
    AwsNodeObject := decodeK8sObject previous.AwsNodeObject doc.AwsNodeObject,
    ClusterAutoscalerObject :=
      decodeK8sObject previous.ClusterAutoscalerObject doc.ClusterAutoscalerObject,
    CoreDnsObject := decodeK8sObject previous.CoreDnsObject doc.CoreDnsObject,
    KubeProxyObject := decodeK8sObject previous.KubeProxyObject doc.KubeProxyObject }

/-- Decoding of the key `clusterlist` into the slice the global already holds, element
by element: the element of the document at an index is decoded into the element of the
slice at that index, into a zero value where the slice is shorter, and the elements of
the slice beyond the document stay. -/
def decodeClusterList :
    List ClusterListConfiguration → List ClusterDocument → List ClusterListConfiguration
  | previous, [] => previous
  | [], doc :: docs => decodeCluster zeroCluster doc :: decodeClusterList [] docs
  | previous :: rest, doc :: docs =>
    decodeCluster previous doc :: decodeClusterList rest docs

/-- The effect of a successful `viper.Unmarshal(&Configuration)`, which decodes into the
value that the global already holds: a component key that is present overwrites its
field, an absent one leaves the field as it was (the zero value on a first call), and
the cluster list is decoded into the existing slice element by element. -/
def unmarshal (Configuration : Configurations) (doc : ConfigDocument) : Configurations :=
  { Components :=
      { AwsNode := doc.AwsNode.getD Configuration.Components.AwsNode,
        ClusterAutoscaler := doc.ClusterAutoscaler.getD Configuration.Components.ClusterAutoscaler,
        CoreDns := doc.CoreDns.getD Configuration.Components.CoreDns,
        KubeProxy := doc.KubeProxy.getD Configuration.Components.KubeProxy },
    ClusterList := decodeClusterList Configuration.ClusterList doc.ClusterList }

/-- `Read`: the returned error together with the value of the global `Configuration`
afterwards.  The three arguments of `Read` only tell viper where to look, which `file`
stands for; the calls to `log` are left out. -/
def Read (file : ConfigFile) (Configuration : Configurations) :
    Option String × Configurations :=
  match file with
  | .notFound =>
    (some "error finding config file. Does it exist? Please create it in $HOME/.k8s-cluster-upgrade-tool/config.yaml if not",
      Configuration)
  | .readError => (some "error reading from config file", Configuration)
  | .unmarshalError after => (some "error un marshaling config file", after)
  | .decoded doc =>
    let Configuration := unmarshal Configuration doc
    if doc.AwsNode.isNone || doc.CoreDns.isNone || doc.KubeProxy.isNone ||
        doc.ClusterAutoscaler.isNone then
      (some "mandatory component version of either aws-node, coredns, kube-proxy or cluster-autoscaler not set in config file",
        Configuration)
    else if !IsClusterListConfigurationValid Configuration then
      (some "one of the clusterlist elements has either Name, AwsRegion, AwsAccount, AwsNodeObject, ClusterAutoscalerObject, KubeProxyObject, CoreDnsObject is missing",
        Configuration)
    else
      (none, Configuration)

/-- The zero value of `Configurations`, which the global holds before the first `Read`. -/
def zeroConfiguration : Configurations := ⟨noComponents, []⟩

/-- An element of `clusterlist` with all its keys, the objects as in the first document
of `TestRead`. -/
def fullClusterDocument (name region account : String) : ClusterDocument :=
  { Name := some name, AwsRegion := some region, AwsAccount := some account,
    AwsNodeObject := ⟨some "aws-node", some "daemonset"⟩,
    ClusterAutoscalerObject := ⟨some "cluster-autoscaler", some "deployment"⟩,
    CoreDnsObject := ⟨some "coredns", some "deployment"⟩,
    KubeProxyObject := ⟨some "kube-proxy", some "daemonset"⟩ }

/-- An element of `clusterlist` with the keys `Name` and `AwsRegion`, with or without
the key `AwsAccount`, and without any object. -/
def bareClusterDocument (name region : String) (account : Option String) :
    ClusterDocument :=
  { Name := some name, AwsRegion := some region, AwsAccount := account,
    AwsNodeObject := ⟨none, none⟩, ClusterAutoscalerObject := ⟨none, none⟩,
    CoreDnsObject := ⟨none, none⟩, KubeProxyObject := ⟨none, none⟩ }

/-- The first document of `TestRead`: four component versions and two fully populated
clusters. -/
def testReadDocument1 : ConfigDocument :=
  { AwsNode := some "aws-node-version",
    ClusterAutoscaler := some "cluster-autoscaler-version",
    CoreDns := some "core-dns-version",
    KubeProxy := some "kube-proxy-version",
    ClusterList := [fullClusterDocument "cluster1" "region1" "account1",
                    fullClusterDocument "cluster2" "region1" "account1"] }

/-- The second document of `TestRead`: four component versions, and two clusters
without objects, the second with `AwsAccount: ""`. -/
def testReadDocument2 : ConfigDocument :=
  { testReadDocument1 with
    ClusterList := [bareClusterDocument "cluster1" "region1" (some "account1"),
                    bareClusterDocument "cluster2" "region1" (some "")] }

/-- The fourth document of `TestRead`: the key `kube-proxy` is absent, and the two
clusters have no objects. -/
def testReadDocument4 : ConfigDocument :=
  { testReadDocument1 with
    KubeProxy := none,
    ClusterList := [bareClusterDocument "cluster1" "region1" (some "account1"),
                    bareClusterDocument "cluster2" "region1" (some "account1")] }

/-- The first document of `TestRead` with the key `coredns` set to the empty string. -/
def documentEmptyCoreDns : ConfigDocument :=
  { testReadDocument1 with CoreDns := some "" }

end Config

namespace K8s

/-- Modelled from the spec: the quote mark that wraps the output of the remote command
(a single quote in the test of `ParseComponentImage`). -/
def quoteChar : Char := Char.ofNat 39

/-- Modelled from the spec: part of the stripping step of `ParseComponentImage`, which
is not among the sources; removes the first character when it is a single quote. -/
def stripLeadingQuote : List Char → List Char
  | [] => []
  | ch :: rest => if ch = quoteChar then rest else ch :: rest

/-- Modelled from the spec: the stripping step of `ParseComponentImage`, which is not
among the sources; removes the wrapping single quotes, one at the start and one at the
end, each only when present. -/
def stripQuotes (l : List Char) : List Char :=
  (stripLeadingQuote (stripLeadingQuote l).reverse).reverse

/-- Modelled from the spec: the splitting step of `ParseComponentImage`, which is not
among the sources; splits at the last colon into everything before it and everything
after it, and gives `none` when there is no colon. -/
def splitLastColon : List Char → Option (List Char × List Char)
  | [] => none
  | ch :: rest =>
    match splitLastColon rest with
    | some (pre, tag) => some (ch :: pre, tag)
    | none => if ch = ':' then some ([], rest) else none

/-- Modelled from the spec: `ParseComponentImage` of `internal/api/k8s`, of which only
the test `cluster_test.go` is among the sources.  Following section 4.4 of the spec, the
image section must be one of the two literals `imageTag` and `imagePrefix` (their
spelling and the message of the error for any other value are those of the test); the
wrapping single quotes of the command output are stripped, the cleaned string is split
at its last colon, and the part asked for is returned with a nil error.  The spec does
not say what is returned when the cleaned string holds no colon: the model gives `none`
there, and `some (result, err)` everywhere else. -/
def ParseComponentImage (kubectlExecOutput imageSection : String) :
    Option (String × Option String) :=
  if imageSection = "imageTag" then
    (splitLastColon (stripQuotes kubectlExecOutput.data)).map
      (fun parts => (String.mk parts.2, none))
  else if imageSection = "imagePrefix" then
    (splitLastColon (stripQuotes kubectlExecOutput.data)).map
      (fun parts => (String.mk parts.1, none))
  else
    some ("", some "invalid imageSection Passed")

end K8s

namespace Config

/-! ## Validation of the cluster list -/

theorem clusterHasEmptyField_eq_false_iff (d : ClusterListConfiguration) :
    clusterHasEmptyField d = false ↔ AllFieldsNonEmpty d := by
  simp [clusterHasEmptyField, AllFieldsNonEmpty, and_assoc]

theorem foldl_validLoopBody_false (l : List ClusterListConfiguration) :
    l.foldl validLoopBody false = false := by
  induction l with
  | nil => rfl
  | cons d l ih =>
    rw [List.foldl_cons]
    have hstep : validLoopBody false d = false := by
      unfold validLoopBody; split <;> rfl
    rw [hstep, ih]

theorem foldl_validLoopBody_true_iff (l : List ClusterListConfiguration) :
    l.foldl validLoopBody true = true ↔ ∀ d ∈ l, AllFieldsNonEmpty d := by
  induction l with
  | nil => simp
  | cons d l ih =>
    rw [List.foldl_cons, List.forall_mem_cons]
    cases h : clusterHasEmptyField d with
    | true =>
      have hd : ¬ AllFieldsNonEmpty d := by
        rw [← clusterHasEmptyField_eq_false_iff, h]; simp
      have hstep : validLoopBody true d = false := by simp [validLoopBody, h]
      rw [hstep, foldl_validLoopBody_false]
      simp [hd]
    | false =>
      have hd : AllFieldsNonEmpty d := (clusterHasEmptyField_eq_false_iff d).mp h
      have hstep : validLoopBody true d = true := by simp [validLoopBody, h]
      rw [hstep, ih]
      simp [hd]

/-- C1: `IsClusterListConfigurationValid` returns true exactly when every element of
the cluster list has all eleven strings non-empty (so it is true on the empty list);
the two failing test configurations, with an empty `CoreDnsObject.Type` and with a
missing `CoreDnsObject` on the second cluster, give false. -/
theorem C1_isClusterListConfigurationValid_iff :
    (∀ c : Configurations,
      IsClusterListConfigurationValid c = true ↔ ∀ d ∈ c.ClusterList, AllFieldsNonEmpty d) ∧
    IsClusterListConfigurationValid testConfigEmptyType = false ∧
    IsClusterListConfigurationValid testConfigMissingObject = false := by
  refine ⟨fun c => foldl_validLoopBody_true_iff c.ClusterList, by decide, by decide⟩

/-! ## Validation of the component versions -/

theorem isComponentVersionConfigurationsValid_iff (c : Configurations) :
    IsComponentVersionConfigurationsValid c = true ↔
      c.Components.AwsNode ≠ "" ∧ c.Components.ClusterAutoscaler ≠ "" ∧
        c.Components.CoreDns ≠ "" ∧ c.Components.KubeProxy ≠ "" := by
  simp only [IsComponentVersionConfigurationsValid]
  split_ifs with h
  · simp only [Bool.or_eq_true, beq_iff_eq] at h
    simp only [ne_eq, Bool.false_eq_true, false_iff]
    tauto
  · simp only [Bool.or_eq_true, beq_iff_eq] at h
    simp only [ne_eq, true_iff]
    tauto

/-- C2: `IsComponentVersionConfigurationsValid` returns true exactly when the four
component versions are all non-empty; hence the result is the same for two
configurations whose versions are empty in the same places, whatever the non-empty
values and the cluster lists are. -/
theorem C2_isComponentVersionConfigurationsValid_iff :
    (∀ c : Configurations,
      IsComponentVersionConfigurationsValid c = true ↔
        c.Components.AwsNode ≠ "" ∧ c.Components.ClusterAutoscaler ≠ "" ∧
          c.Components.CoreDns ≠ "" ∧ c.Components.KubeProxy ≠ "") ∧
    (∀ c₁ c₂ : Configurations,
      ((c₁.Components.AwsNode = "" ↔ c₂.Components.AwsNode = "") ∧
        (c₁.Components.ClusterAutoscaler = "" ↔ c₂.Components.ClusterAutoscaler = "") ∧
        (c₁.Components.CoreDns = "" ↔ c₂.Components.CoreDns = "") ∧
        (c₁.Components.KubeProxy = "" ↔ c₂.Components.KubeProxy = "")) →
      IsComponentVersionConfigurationsValid c₁ = IsComponentVersionConfigurationsValid c₂) := by
  refine ⟨isComponentVersionConfigurationsValid_iff, ?_⟩
  intro c₁ c₂ ⟨h₁, h₂, h₃, h₄⟩
  rw [Bool.eq_iff_iff, isComponentVersionConfigurationsValid_iff,
    isComponentVersionConfigurationsValid_iff]
  simp only [ne_eq, h₁, h₂, h₃, h₄]

/-! ## Lookups by cluster name -/

theorem containsLoopBody_true (n : String) (d : ClusterListConfiguration) :
    containsLoopBody n true d = true := by
  unfold containsLoopBody; split <;> rfl

theorem foldl_containsLoopBody_true (n : String) (l : List ClusterListConfiguration) :
    l.foldl (containsLoopBody n) true = true := by
  induction l with
  | nil => rfl
  | cons d l ih => rw [List.foldl_cons, containsLoopBody_true, ih]

theorem foldl_containsLoopBody_false_iff (n : String) (l : List ClusterListConfiguration) :
    l.foldl (containsLoopBody n) false = true ↔ ∃ d ∈ l, d.Name = n := by
  induction l with
  | nil => simp
  | cons d l ih =>
    rw [List.foldl_cons, List.exists_mem_cons_iff]
    by_cases h : d.Name = n
    · have hstep : containsLoopBody n false d = true := by simp [containsLoopBody, h]
      rw [hstep, foldl_containsLoopBody_true]
      simp [h]
    · have hstep : containsLoopBody n false d = false := by simp [containsLoopBody, h]
      rw [hstep, ih]
      simp [h]

theorem isClusterNameValid_iff (c : Configurations) (n : String) :
    IsClusterNameValid c n = true ↔ ∃ d ∈ c.ClusterList, d.Name = n :=
  foldl_containsLoopBody_false_iff n c.ClusterList

theorem exists_name_iff_mem_map (l : List ClusterListConfiguration) (n : String) :
    (∃ d ∈ l, d.Name = n) ↔ n ∈ l.map (fun d => d.Name) := by
  simp [List.mem_map]

/-- C3: `IsClusterNameValid` returns true exactly when some element of the cluster list
has a name equal to the one passed; two configurations whose lists carry the same names
in the same order give the same answer, whatever their other fields, and the comparison
is case-sensitive (`Cluster1` is not found in a list holding `cluster1`). -/
theorem C3_isClusterNameValid_iff :
    (∀ (c : Configurations) (clusterName : String),
      IsClusterNameValid c clusterName = true ↔ ∃ d ∈ c.ClusterList, d.Name = clusterName) ∧
    (∀ (c₁ c₂ : Configurations) (clusterName : String),
      c₁.ClusterList.map (fun d => d.Name) = c₂.ClusterList.map (fun d => d.Name) →
      IsClusterNameValid c₁ clusterName = IsClusterNameValid c₂ clusterName) ∧
    IsClusterNameValid testConfigLookup "cluster1" = true ∧
    IsClusterNameValid testConfigLookup "Cluster1" = false := by
  refine ⟨isClusterNameValid_iff, ?_, by decide, by decide⟩
  intro c₁ c₂ n h
  rw [Bool.eq_iff_iff, isClusterNameValid_iff, isClusterNameValid_iff,
    exists_name_iff_mem_map, exists_name_iff_mem_map, h]

theorem getLoop_append_first (n : String) (pre post : List ClusterListConfiguration)
    (d : ClusterListConfiguration) (hpre : ∀ x ∈ pre, x.Name ≠ n) (hd : d.Name = n) :
    getAwsAccountAndRegionLoop n (pre ++ d :: post) = (d.AwsAccount, d.AwsRegion, none) := by
  induction pre with
  | nil => simp [getAwsAccountAndRegionLoop, hd]
  | cons x pre ih =>
    have hx : x.Name ≠ n := hpre x (List.mem_cons_self x pre)
    have hrest : ∀ y ∈ pre, y.Name ≠ n := fun y hy => hpre y (List.mem_cons_of_mem x hy)
    simp [getAwsAccountAndRegionLoop, hx, ih hrest]

theorem exists_first_match (n : String) (l : List ClusterListConfiguration)
    (h : ∃ x ∈ l, x.Name = n) :
    ∃ pre d post, l = pre ++ d :: post ∧ (∀ x ∈ pre, x.Name ≠ n) ∧ d.Name = n := by
  induction l with
  | nil => simp at h
  | cons x l ih =>
    by_cases hx : x.Name = n
    · exact ⟨[], x, l, rfl, by simp, hx⟩
    · have hl : ∃ y ∈ l, y.Name = n := by
        obtain ⟨y, hy, hyn⟩ := h
        rcases List.mem_cons.mp hy with rfl | hy
        · exact absurd hyn hx
        · exact ⟨y, hy, hyn⟩
      obtain ⟨pre, d, post, hdec, hpre, hd⟩ := ih hl
      refine ⟨x :: pre, d, post, by rw [hdec]; rfl, ?_, hd⟩
      intro y hy
      rcases List.mem_cons.mp hy with rfl | hy
      · exact hx
      · exact hpre y hy

theorem getLoop_not_found (n : String) (l : List ClusterListConfiguration)
    (h : ∀ x ∈ l, x.Name ≠ n) :
    getAwsAccountAndRegionLoop n l = ("", "", some notFoundMessage) := by
  induction l with
  | nil => rfl
  | cons x l ih =>
    have hx : x.Name ≠ n := h x (List.mem_cons_self x l)
    have hrest : ∀ y ∈ l, y.Name ≠ n := fun y hy => h y (List.mem_cons_of_mem x hy)
    simp [getAwsAccountAndRegionLoop, hx, ih hrest]

theorem getLoop_err_eq_none_iff (n : String) (l : List ClusterListConfiguration) :
    (getAwsAccountAndRegionLoop n l).2.2 = none ↔ ∃ x ∈ l, x.Name = n := by
  constructor
  · intro h
    by_contra hne
    have hall : ∀ x ∈ l, x.Name ≠ n := fun x hx hxn => hne ⟨x, hx, hxn⟩
    rw [getLoop_not_found n l hall] at h
    simp at h
  · intro h
    obtain ⟨pre, d, post, hdec, hpre, hd⟩ := exists_first_match n l h
    rw [hdec, getLoop_append_first n pre post d hpre hd]

/-- C4: when some element of the cluster list has the name passed, the list splits as
`pre ++ d :: post` with `d` the first element of that name (no element of `pre` has it),
and `GetAwsAccountAndRegionForCluster` returns the account and region of that `d` with
a nil error; the same holds for every such split, whatever `post` holds. -/
theorem C4_getAwsAccountAndRegion_first_match (c : Configurations) (clusterName : String)
    (h : ∃ x ∈ c.ClusterList, x.Name = clusterName) :
    (∃ pre d post, c.ClusterList = pre ++ d :: post ∧
      (∀ x ∈ pre, x.Name ≠ clusterName) ∧ d.Name = clusterName ∧
      GetAwsAccountAndRegionForCluster c clusterName = (d.AwsAccount, d.AwsRegion, none)) ∧
    (∀ pre d post, c.ClusterList = pre ++ d :: post →
      (∀ x ∈ pre, x.Name ≠ clusterName) → d.Name = clusterName →
      GetAwsAccountAndRegionForCluster c clusterName = (d.AwsAccount, d.AwsRegion, none)) := by
  have key : ∀ pre d post, c.ClusterList = pre ++ d :: post →
      (∀ x ∈ pre, x.Name ≠ clusterName) → d.Name = clusterName →
      GetAwsAccountAndRegionForCluster c clusterName = (d.AwsAccount, d.AwsRegion, none) := by
    intro pre d post hdec hpre hd
    unfold GetAwsAccountAndRegionForCluster
    rw [hdec]
    exact getLoop_append_first clusterName pre post d hpre hd
  obtain ⟨pre, d, post, hdec, hpre, hd⟩ := exists_first_match clusterName c.ClusterList h
  exact ⟨⟨pre, d, post, hdec, hpre, hd, key pre d post hdec hpre hd⟩, key⟩

/-- Witness of C4: in a list where `cluster1` occurs twice with different account and
region, the first occurrence is returned. -/
theorem C4_getAwsAccountAndRegion_first_match_witness :
    (∃ x ∈ testConfigDuplicate.ClusterList, x.Name = "cluster1") ∧
    GetAwsAccountAndRegionForCluster testConfigDuplicate "cluster1" =
      ("account1", "region1", none) :=
  ⟨by decide,
   (C4_getAwsAccountAndRegion_first_match testConfigDuplicate "cluster1" (by decide)).2
     [bareCluster "cluster0" "region0" "account0"]
     (bareCluster "cluster1" "region1" "account1")
     [bareCluster "cluster1" "region2" "account2"]
     rfl (by decide) rfl⟩

/-- C5: `GetAwsAccountAndRegionForCluster` returns a non-nil error exactly when no
element of the cluster list has the name passed, and then the result is two empty
strings with the not-found message; a cluster that is present with blank account and
region gives two empty strings and a nil error, and an absent one the error. -/
theorem C5_getAwsAccountAndRegion_error_iff :
    (∀ (c : Configurations) (clusterName : String),
      ((GetAwsAccountAndRegionForCluster c clusterName).2.2 ≠ none ↔
        ∀ d ∈ c.ClusterList, d.Name ≠ clusterName) ∧
      ((GetAwsAccountAndRegionForCluster c clusterName).2.2 ≠ none →
        GetAwsAccountAndRegionForCluster c clusterName =
          ("", "", some "no awsAccount and awsRegion was found for the passed clusterName"))) ∧
    GetAwsAccountAndRegionForCluster ⟨noComponents, [bareCluster "blank" "" ""]⟩ "blank" =
      ("", "", none) ∧
    GetAwsAccountAndRegionForCluster ⟨noComponents, [bareCluster "blank" "" ""]⟩ "absent" =
      ("", "", some "no awsAccount and awsRegion was found for the passed clusterName") := by
  refine ⟨fun c n => ?_, by decide, by decide⟩
  have hiff : (GetAwsAccountAndRegionForCluster c n).2.2 ≠ none ↔
      ∀ d ∈ c.ClusterList, d.Name ≠ n := by
    unfold GetAwsAccountAndRegionForCluster
    rw [ne_eq, getLoop_err_eq_none_iff]
    simp
  refine ⟨hiff, fun herr => ?_⟩
  exact getLoop_not_found n c.ClusterList (hiff.mp herr)

/-! ## Checking a component version against the configuration -/

/-- C6: `ValidatePassedComponentVersions` returns nil exactly when the component name
is one of the four literals and the version passed equals the version configured for
that component; versions that differ in case, by a trailing blank or by being a prefix
are rejected. -/
theorem C6_validatePassedComponentVersions_nil_iff :
    (∀ (c : Configurations) (componentName componentVersion : String),
      ValidatePassedComponentVersions c componentName componentVersion = none ↔
        (componentName = "aws-node" ∧ componentVersion = c.Components.AwsNode) ∨
        (componentName = "cluster-autoscaler" ∧
          componentVersion = c.Components.ClusterAutoscaler) ∨
        (componentName = "kube-proxy" ∧ componentVersion = c.Components.KubeProxy) ∨
        (componentName = "coredns" ∧ componentVersion = c.Components.CoreDns)) ∧
    ValidatePassedComponentVersions testConfigVersions "coredns" "rightvalue" = none ∧
    ValidatePassedComponentVersions testConfigVersions "coredns" "Rightvalue" ≠ none ∧
    ValidatePassedComponentVersions testConfigVersions "coredns" "rightvalue " ≠ none ∧
    ValidatePassedComponentVersions testConfigVersions "coredns" "right" ≠ none := by
  refine ⟨fun c n v => ?_, by decide, by decide, by decide, by decide⟩
  unfold ValidatePassedComponentVersions
  split_ifs <;> simp_all

theorem validate_recognized_ne_invalid (c : Configurations) (k v : String)
    (hk : k ∈ componentNames) :
    ValidatePassedComponentVersions c k v ≠ some invalidComponentMessage := by
  simp only [componentNames, List.mem_cons, List.mem_singleton, List.not_mem_nil,
    or_false] at hk
  rcases hk with rfl | rfl | rfl | rfl <;>
    (unfold ValidatePassedComponentVersions invalidComponentMessage
     split_ifs <;> simp_all)

theorem invalidComponentMessage_names_all :
    ∀ k ∈ componentNames, ∃ pre post : String, invalidComponentMessage = pre ++ k ++ post := by
  intro k hk
  simp only [componentNames, List.mem_cons, List.mem_singleton, List.not_mem_nil,
    or_false] at hk
  rcases hk with rfl | rfl | rfl | rfl
  · exact ⟨"please pass a valid component name from this list [coredns, cluster-autoscaler, kube-proxy, ",
      "]", by decide⟩
  · exact ⟨"please pass a valid component name from this list [coredns, ",
      ", kube-proxy, aws-node]", by decide⟩
  · exact ⟨"please pass a valid component name from this list [coredns, cluster-autoscaler, ",
      ", aws-node]", by decide⟩
  · exact ⟨"please pass a valid component name from this list [",
      ", cluster-autoscaler, kube-proxy, aws-node]", by decide⟩

/-- C7: for a component name outside the four literals, whatever the version and the
configuration, `ValidatePassedComponentVersions` returns the error with the message
"please pass a valid component name from this list [coredns, cluster-autoscaler,
kube-proxy, aws-node]"; each of the four literals occurs in that message, and the
function never returns it for one of the four literals. -/
theorem C7_validatePassedComponentVersions_unrecognized (c : Configurations)
    (componentName componentVersion : String) (h : componentName ∉ componentNames) :
    ValidatePassedComponentVersions c componentName componentVersion =
      some "please pass a valid component name from this list [coredns, cluster-autoscaler, kube-proxy, aws-node]" ∧
    (∀ k ∈ componentNames, ∃ pre post : String, invalidComponentMessage = pre ++ k ++ post) ∧
    (∀ (c' : Configurations) (k v : String), k ∈ componentNames →
      ValidatePassedComponentVersions c' k v ≠
        ValidatePassedComponentVersions c componentName componentVersion) := by
  have hres : ValidatePassedComponentVersions c componentName componentVersion =
      some invalidComponentMessage := by
    simp only [componentNames, List.mem_cons, List.mem_singleton, List.not_mem_nil,
      or_false, not_or] at h
    obtain ⟨h₁, h₂, h₃, h₄⟩ := h
    simp [ValidatePassedComponentVersions, invalidComponentMessage, h₁, h₂, h₃, h₄]
  refine ⟨hres, invalidComponentMessage_names_all, ?_⟩
  intro c' k v hk
  rw [hres]
  exact validate_recognized_ne_invalid c' k v hk

/-- Witness of C7: the empty name and the spelling `CoreDNS` are not recognized. -/
theorem C7_validatePassedComponentVersions_unrecognized_witness :
    ("" ∉ componentNames ∧
      ValidatePassedComponentVersions testConfigVersions "" "rightvalue" =
        some "please pass a valid component name from this list [coredns, cluster-autoscaler, kube-proxy, aws-node]") ∧
    ("CoreDNS" ∉ componentNames ∧
      ValidatePassedComponentVersions testConfigVersions "CoreDNS" "rightvalue" =
        some "please pass a valid component name from this list [coredns, cluster-autoscaler, kube-proxy, aws-node]") :=
  ⟨⟨by decide,
    (C7_validatePassedComponentVersions_unrecognized testConfigVersions "" "rightvalue"
      (by decide)).1⟩,
   ⟨by decide,
    (C7_validatePassedComponentVersions_unrecognized testConfigVersions "CoreDNS" "rightvalue"
      (by decide)).1⟩⟩

/-- C8: for each of the four recognized names, when the version passed differs from
the version configured for that name, `ValidatePassedComponentVersions` returns the
error whose message is that name followed by " component version passed doesn't match
the version in config, please check the value in config file", and not the message
built from any of the other three names. -/
theorem C8_validatePassedComponentVersions_mismatch (c : Configurations)
    (k componentVersion : String)
    (h : (k = "aws-node" ∧ componentVersion ≠ c.Components.AwsNode) ∨
      (k = "cluster-autoscaler" ∧ componentVersion ≠ c.Components.ClusterAutoscaler) ∨
      (k = "kube-proxy" ∧ componentVersion ≠ c.Components.KubeProxy) ∨
      (k = "coredns" ∧ componentVersion ≠ c.Components.CoreDns)) :
    ValidatePassedComponentVersions c k componentVersion =
      some (k ++ " component version passed doesn't match the version in config, please check the value in config file") ∧
    (∀ k' ∈ componentNames, k' ≠ k →
      ValidatePassedComponentVersions c k componentVersion ≠ some (k' ++ mismatchSuffix)) := by
  have hres : ValidatePassedComponentVersions c k componentVersion =
      some (k ++ mismatchSuffix) := by
    rcases h with ⟨rfl, hv⟩ | ⟨rfl, hv⟩ | ⟨rfl, hv⟩ | ⟨rfl, hv⟩ <;>
      simp [ValidatePassedComponentVersions, mismatchSuffix, hv]
  refine ⟨hres, ?_⟩
  intro k' hk' hne
  rw [hres]
  intro heq
  apply hne
  have hdata : k'.data ++ mismatchSuffix.data = k.data ++ mismatchSuffix.data := by
    have := congrArg String.data (Option.some.inj heq)
    simpa [String.data_append] using this.symm
  exact String.ext (List.append_cancel_right hdata)

/-- Witness of C8: the failing case of the test, `coredns` with `wrongvalue`. -/
theorem C8_validatePassedComponentVersions_mismatch_witness :
    ("wrongvalue" ≠ testConfigVersions.Components.CoreDns) ∧
    ValidatePassedComponentVersions testConfigVersions "coredns" "wrongvalue" =
      some "coredns component version passed doesn't match the version in config, please check the value in config file" :=
  ⟨by decide,
   (C8_validatePassedComponentVersions_mismatch testConfigVersions "coredns" "wrongvalue"
      (Or.inr (Or.inr (Or.inr ⟨rfl, by decide⟩)))).1⟩

/-! ## Agreement of the two lookups -/

/-- C9: `IsClusterNameValid` is true exactly when `GetAwsAccountAndRegionForCluster`
returns a nil error, and false exactly when it returns two empty strings with the
not-found error. -/
theorem C9_lookups_agree (c : Configurations) (clusterName : String) :
    (IsClusterNameValid c clusterName = true ↔
      (GetAwsAccountAndRegionForCluster c clusterName).2.2 = none) ∧
    (IsClusterNameValid c clusterName = false ↔
      GetAwsAccountAndRegionForCluster c clusterName =
        ("", "", some "no awsAccount and awsRegion was found for the passed clusterName")) := by
  have h₁ : IsClusterNameValid c clusterName = true ↔
      (GetAwsAccountAndRegionForCluster c clusterName).2.2 = none := by
    rw [isClusterNameValid_iff]
    exact (getLoop_err_eq_none_iff clusterName c.ClusterList).symm
  refine ⟨h₁, ?_⟩
  constructor
  · intro hf
    apply getLoop_not_found clusterName c.ClusterList
    intro x hx hxn
    have : IsClusterNameValid c clusterName = true :=
      (isClusterNameValid_iff c clusterName).mpr ⟨x, hx, hxn⟩
    rw [hf] at this
    exact Bool.false_ne_true this
  · intro hg
    cases hv : IsClusterNameValid c clusterName with
    | false => rfl
    | true =>
      have := h₁.mp hv
      rw [hg] at this
      simp at this

end Config

namespace K8s

/-! ## Parsing an image reference -/

theorem splitLastColon_no_colon (t : List Char) (ht : ':' ∉ t) : splitLastColon t = none := by
  induction t with
  | nil => rfl
  | cons ch t ih =>
    have hch : ch ≠ ':' := fun h => ht (h ▸ List.mem_cons_self ch t)
    have ht' : ':' ∉ t := fun h => ht (List.mem_cons_of_mem ch h)
    simp [splitLastColon, ih ht', hch]

theorem splitLastColon_append (p t : List Char) (ht : ':' ∉ t) :
    splitLastColon (p ++ ':' :: t) = some (p, t) := by
  induction p with
  | nil => simp [splitLastColon, splitLastColon_no_colon t ht]
  | cons ch p ih => simp [splitLastColon, ih]

theorem stripQuotes_wrapped (l : List Char) :
    stripQuotes (quoteChar :: (l ++ [quoteChar])) = l := by
  simp [stripQuotes, stripLeadingQuote]

theorem wrapped_data (p t : String) :
    ("'" ++ p ++ ":" ++ t ++ "'").data = quoteChar :: ((p.data ++ ':' :: t.data) ++ [quoteChar]) := by
  have hq : ("'" : String).data = [quoteChar] := by decide
  have hc : (":" : String).data = [':'] := by decide
  rw [String.data_append, String.data_append, String.data_append, String.data_append, hq, hc]
  simp

/-- C10: for every prefix `p` and every tag `t` without a colon, the output
`'p:t'` parses to the tag `t` under `imageTag` and to the prefix `p` under `imagePrefix`,
each with a nil error: the wrapping single quotes are gone and the split is at the last
colon, so colons inside `p` stay in the prefix. -/
theorem C10_parseComponentImage_last_colon (p t : String) (ht : ':' ∉ t.data) :
    ParseComponentImage ("'" ++ p ++ ":" ++ t ++ "'") "imageTag" = some (t, none) ∧
    ParseComponentImage ("'" ++ p ++ ":" ++ t ++ "'") "imagePrefix" = some (p, none) := by
  have hsplit : splitLastColon (stripQuotes ("'" ++ p ++ ":" ++ t ++ "'").data) =
      some (p.data, t.data) := by
    rw [wrapped_data, stripQuotes_wrapped, splitLastColon_append p.data t.data ht]
  constructor
  · unfold ParseComponentImage
    rw [if_pos rfl, hsplit]
    rfl
  · unfold ParseComponentImage
    rw [if_neg (by decide), if_pos rfl, hsplit]
    rfl

/-- Witness of C10: the image reference of the test, and a prefix holding a registry
port. -/
theorem C10_parseComponentImage_last_colon_witness :
    (':' ∉ "my-version".data ∧
      ParseComponentImage "'my-hash.dkr.ecr.eu-west-1.amazonaws.com/amazon-k8s-cni:my-version'"
        "imageTag" = some ("my-version", none) ∧
      ParseComponentImage "'my-hash.dkr.ecr.eu-west-1.amazonaws.com/amazon-k8s-cni:my-version'"
        "imagePrefix" = some ("my-hash.dkr.ecr.eu-west-1.amazonaws.com/amazon-k8s-cni", none)) ∧
    (':' ∉ "v1".data ∧
      ParseComponentImage "'registry.local:5000/coredns:v1'" "imagePrefix" =
        some ("registry.local:5000/coredns", none)) :=
  ⟨⟨by decide,
    C10_parseComponentImage_last_colon
      "my-hash.dkr.ecr.eu-west-1.amazonaws.com/amazon-k8s-cni" "my-version" (by decide)⟩,
   ⟨by decide,
    (C10_parseComponentImage_last_colon "registry.local:5000/coredns" "v1" (by decide)).2⟩⟩

/-- C11: for an image section other than `imageTag` and `imagePrefix`,
`ParseComponentImage` returns the empty string with the error "invalid imageSection
Passed", whatever the command output is (with or without a colon, empty or not). -/
theorem C11_parseComponentImage_invalid_section (kubectlExecOutput imageSection : String)
    (h₁ : imageSection ≠ "imageTag") (h₂ : imageSection ≠ "imagePrefix") :
    ParseComponentImage kubectlExecOutput imageSection =
      some ("", some "invalid imageSection Passed") := by
  unfold ParseComponentImage
  rw [if_neg h₁, if_neg h₂]

/-- Witness of C11: the selector `foo` of the test, on the output of the test and on an
output without a colon. -/
theorem C11_parseComponentImage_invalid_section_witness :
    ("foo" ≠ "imageTag" ∧ "foo" ≠ "imagePrefix") ∧
    ParseComponentImage "'my-hash.dkr.ecr.eu-west-1.amazonaws.com/amazon-k8s-cni:my-version'"
      "foo" = some ("", some "invalid imageSection Passed") ∧
    ParseComponentImage "" "foo" = some ("", some "invalid imageSection Passed") :=
  ⟨⟨by decide, by decide⟩,
   C11_parseComponentImage_invalid_section
     "'my-hash.dkr.ecr.eu-west-1.amazonaws.com/amazon-k8s-cni:my-version'" "foo"
     (by decide) (by decide),
   C11_parseComponentImage_invalid_section "" "foo" (by decide) (by decide)⟩

end K8s

namespace Config

/-! ## Order of the cluster list -/

theorem getLoop_eq_of_perm (n : String) (l l' : List ClusterListConfiguration)
    (hperm : l'.Perm l) (hnodup : (l.map (fun d => d.Name)).Nodup) :
    getAwsAccountAndRegionLoop n l' = getAwsAccountAndRegionLoop n l := by
  by_cases h : ∃ x ∈ l, x.Name = n
  · have h' : ∃ x ∈ l', x.Name = n := by
      obtain ⟨x, hx, hxn⟩ := h
      exact ⟨x, hperm.mem_iff.mpr hx, hxn⟩
    obtain ⟨pre, d, post, hdec, hpre, hd⟩ := exists_first_match n l h
    obtain ⟨pre', d', post', hdec', hpre', hd'⟩ := exists_first_match n l' h'
    have hdmem : d ∈ l := by rw [hdec]; simp
    have hdmem' : d' ∈ l := by
      apply hperm.mem_iff.mp
      rw [hdec']; simp
    have hdd : d' = d :=
      List.inj_on_of_nodup_map hnodup hdmem' hdmem (hd'.trans hd.symm)
    rw [hdec, hdec', getLoop_append_first n pre post d hpre hd,
      getLoop_append_first n pre' post' d' hpre' hd', hdd]
  · have hall : ∀ x ∈ l, x.Name ≠ n := fun x hx hxn => h ⟨x, hx, hxn⟩
    have hall' : ∀ x ∈ l', x.Name ≠ n := fun x hx => hall x (hperm.mem_iff.mp hx)
    rw [getLoop_not_found n l hall, getLoop_not_found n l' hall']

/-- C12: reordering the cluster list (same components) changes neither
`IsClusterListConfigurationValid` nor `IsClusterNameValid` for any name; when the names
of the list are pairwise distinct it does not change the result of
`GetAwsAccountAndRegionForCluster` for any name either. -/
theorem C12_cluster_list_order_irrelevant (c : Configurations)
    (l' : List ClusterListConfiguration) (hperm : l'.Perm c.ClusterList) :
    IsClusterListConfigurationValid { c with ClusterList := l' } =
      IsClusterListConfigurationValid c ∧
    (∀ n : String,
      IsClusterNameValid { c with ClusterList := l' } n = IsClusterNameValid c n) ∧
    ((c.ClusterList.map (fun d => d.Name)).Nodup →
      ∀ n : String,
        GetAwsAccountAndRegionForCluster { c with ClusterList := l' } n =
          GetAwsAccountAndRegionForCluster c n) := by
  refine ⟨?_, ?_, ?_⟩
  · rw [Bool.eq_iff_iff]
    unfold IsClusterListConfigurationValid
    rw [foldl_validLoopBody_true_iff, foldl_validLoopBody_true_iff]
    exact ⟨fun h d hd => h d (hperm.mem_iff.mpr hd), fun h d hd => h d (hperm.mem_iff.mp hd)⟩
  · intro n
    rw [Bool.eq_iff_iff, isClusterNameValid_iff, isClusterNameValid_iff]
    constructor
    · rintro ⟨d, hd, hdn⟩
      exact ⟨d, hperm.mem_iff.mp hd, hdn⟩
    · rintro ⟨d, hd, hdn⟩
      exact ⟨d, hperm.mem_iff.mpr hd, hdn⟩
  · intro hnodup n
    exact getLoop_eq_of_perm n c.ClusterList l' hperm hnodup

/-- Witness of C12: the two clusters of the lookup test in the other order. -/
theorem C12_cluster_list_order_irrelevant_witness :
    testConfigLookupSwapped.ClusterList.Perm testConfigLookup.ClusterList ∧
    (testConfigLookup.ClusterList.map (fun d => d.Name)).Nodup ∧
    IsClusterListConfigurationValid testConfigLookupSwapped =
      IsClusterListConfigurationValid testConfigLookup ∧
    IsClusterNameValid testConfigLookupSwapped "cluster2" =
      IsClusterNameValid testConfigLookup "cluster2" ∧
    GetAwsAccountAndRegionForCluster testConfigLookupSwapped "cluster2" =
      GetAwsAccountAndRegionForCluster testConfigLookup "cluster2" :=
  have hperm : testConfigLookupSwapped.ClusterList.Perm testConfigLookup.ClusterList :=
    List.Perm.swap _ _ []
  have hnodup : (testConfigLookup.ClusterList.map (fun d => d.Name)).Nodup := by decide
  have h := C12_cluster_list_order_irrelevant testConfigLookup
    testConfigLookupSwapped.ClusterList hperm
  ⟨hperm, hnodup, h.1, h.2.1 "cluster2", h.2.2 hnodup "cluster2"⟩

/-! ## Full scan against short circuit -/

theorem isClusterListValidShortCircuit_iff (l : List ClusterListConfiguration) :
    isClusterListValidShortCircuit l = true ↔ ∀ d ∈ l, AllFieldsNonEmpty d := by
  induction l with
  | nil => simp [isClusterListValidShortCircuit]
  | cons d l ih =>
    rw [List.forall_mem_cons, ← ih, ← clusterHasEmptyField_eq_false_iff]
    cases h : clusterHasEmptyField d <;> simp [isClusterListValidShortCircuit, h]

theorem isClusterNameValidShortCircuit_iff (n : String) (l : List ClusterListConfiguration) :
    isClusterNameValidShortCircuit n l = true ↔ ∃ d ∈ l, d.Name = n := by
  induction l with
  | nil => simp [isClusterNameValidShortCircuit]
  | cons d l ih =>
    rw [List.exists_mem_cons_iff, ← ih]
    by_cases h : d.Name = n <;> simp [isClusterNameValidShortCircuit, h]

/-- C13: the full-scan `IsClusterListConfigurationValid` returns the same boolean as the
variant that stops with `false` at the first descriptor with an empty field, and the
full-scan `IsClusterNameValid` the same boolean as the variant that stops with `true` at
the first matching name. -/
theorem C13_full_scan_eq_short_circuit (c : Configurations) :
    IsClusterListConfigurationValid c = isClusterListValidShortCircuit c.ClusterList ∧
    ∀ clusterName : String,
      IsClusterNameValid c clusterName =
        isClusterNameValidShortCircuit clusterName c.ClusterList := by
  constructor
  · rw [Bool.eq_iff_iff, isClusterListValidShortCircuit_iff]
    exact foldl_validLoopBody_true_iff c.ClusterList
  · intro n
    rw [Bool.eq_iff_iff, isClusterNameValidShortCircuit_iff]
    exact isClusterNameValid_iff c n

/-! ## The empty cluster list -/

/-- C19: on a configuration with an empty cluster list, `IsClusterListConfigurationValid`
returns true, `IsClusterNameValid` returns false for every name, and
`GetAwsAccountAndRegionForCluster` returns two empty strings with the not-found error. -/
theorem C19_empty_cluster_list (c : Configurations) (clusterName : String)
    (h : c.ClusterList = []) :
    IsClusterListConfigurationValid c = true ∧
    IsClusterNameValid c clusterName = false ∧
    GetAwsAccountAndRegionForCluster c clusterName =
      ("", "", some "no awsAccount and awsRegion was found for the passed clusterName") := by
  unfold IsClusterListConfigurationValid IsClusterNameValid GetAwsAccountAndRegionForCluster
  rw [h]
  exact ⟨rfl, rfl, rfl⟩

/-- Witness of C19: the configuration of the version test has no clusters. -/
theorem C19_empty_cluster_list_witness :
    testConfigVersions.ClusterList = [] ∧
    IsClusterListConfigurationValid testConfigVersions = true ∧
    IsClusterNameValid testConfigVersions "cluster1" = false ∧
    GetAwsAccountAndRegionForCluster testConfigVersions "cluster1" =
      ("", "", some "no awsAccount and awsRegion was found for the passed clusterName") :=
  ⟨rfl, C19_empty_cluster_list testConfigVersions "cluster1" rfl⟩

/-! ## Independence of the other component versions -/

/-- C20: for a recognized component name, two configurations that agree on the version
configured for that name give the same result of `ValidatePassedComponentVersions`,
however they differ in the other three versions and in the cluster list. -/
theorem C20_validate_depends_on_one_version (c₁ c₂ : Configurations)
    (k componentVersion : String)
    (h : (k = "aws-node" ∧ c₁.Components.AwsNode = c₂.Components.AwsNode) ∨
      (k = "cluster-autoscaler" ∧
        c₁.Components.ClusterAutoscaler = c₂.Components.ClusterAutoscaler) ∨
      (k = "kube-proxy" ∧ c₁.Components.KubeProxy = c₂.Components.KubeProxy) ∨
      (k = "coredns" ∧ c₁.Components.CoreDns = c₂.Components.CoreDns)) :
    ValidatePassedComponentVersions c₁ k componentVersion =
      ValidatePassedComponentVersions c₂ k componentVersion := by
  rcases h with ⟨rfl, hv⟩ | ⟨rfl, hv⟩ | ⟨rfl, hv⟩ | ⟨rfl, hv⟩ <;>
    simp [ValidatePassedComponentVersions, hv]

/-- Witness of C20: two configurations that share the `kube-proxy` version and nothing
else. -/
theorem C20_validate_depends_on_one_version_witness :
    testConfigVersions.Components.KubeProxy = testConfigVersionsOther.Components.KubeProxy ∧
    testConfigVersions.Components.CoreDns ≠ testConfigVersionsOther.Components.CoreDns ∧
    ValidatePassedComponentVersions testConfigVersions "kube-proxy" "wrongvalue" =
      ValidatePassedComponentVersions testConfigVersionsOther "kube-proxy" "wrongvalue" :=
  ⟨rfl, by decide,
   C20_validate_depends_on_one_version testConfigVersions testConfigVersionsOther
     "kube-proxy" "wrongvalue" (Or.inr (Or.inr (Or.inl ⟨rfl, rfl⟩)))⟩

end Config

namespace Config

/-! ## Reading the configuration file -/

/-- C14: the first document of `TestRead` is read without error into the configuration
with the four versions and the two clusters; on it both validators return true, the
lookup of `cluster1` returns `account1` and `region1` with a nil error, and
`kube-proxy-version` is accepted for `kube-proxy`. -/
theorem C14_end_to_end_scenario :
    Read (.decoded testReadDocument1) zeroConfiguration =
      (none,
        { Components := ⟨"aws-node-version", "cluster-autoscaler-version",
            "core-dns-version", "kube-proxy-version"⟩,
          ClusterList := [fullCluster "cluster1" "region1" "account1",
                          fullCluster "cluster2" "region1" "account1"] }) ∧
    IsClusterListConfigurationValid (Read (.decoded testReadDocument1) zeroConfiguration).2 =
      true ∧
    IsComponentVersionConfigurationsValid
      (Read (.decoded testReadDocument1) zeroConfiguration).2 = true ∧
    GetAwsAccountAndRegionForCluster
      (Read (.decoded testReadDocument1) zeroConfiguration).2 "cluster1" =
      ("account1", "region1", none) ∧
    ValidatePassedComponentVersions
      (Read (.decoded testReadDocument1) zeroConfiguration).2
      "kube-proxy" "kube-proxy-version" = none := by
  refine ⟨by decide, by decide, by decide, by decide, by decide⟩

/-- C15, the claim as stated fails: the three results of `FileMetadata` do not each
equal the constant of their name, since the result named `filePath` is "yaml" and the
result named `fileType` is "$HOME/.k8s-cluster-upgrade-tool". -/
theorem C15_fileMetadata_names_mismatch :
    ¬ (FileMetadata.fileName = FileName ∧ FileMetadata.filePath = FilePath ∧
        FileMetadata.fileType = FileType) ∧
    FileMetadata.filePath = "yaml" ∧
    FileMetadata.fileType = "$HOME/.k8s-cluster-upgrade-tool" := by
  refine ⟨?_, rfl, rfl⟩
  rintro ⟨_, h, _⟩
  exact absurd h (by decide)

/-- C15 as amended: `FileMetadata` returns, by position, the constant `FileName`
("config"), then the constant `FileType` ("yaml"), then the constant `FilePath`
("$HOME/.k8s-cluster-upgrade-tool"); of the names of the signature, `fileName` holds
`FileName`, `filePath` holds `FileType` and `fileType` holds `FilePath`. -/
theorem C15_fileMetadata_by_position :
    FileMetadata.byPosition = (FileName, FileType, FilePath) ∧
    FileMetadata.byPosition = ("config", "yaml", "$HOME/.k8s-cluster-upgrade-tool") ∧
    FileMetadata.fileName = FileName ∧
    FileMetadata.filePath = FileType ∧
    FileMetadata.fileType = FilePath :=
  ⟨rfl, rfl, rfl, rfl, rfl⟩

theorem read_decoded_all_present (doc : ConfigDocument) (prev : Configurations)
    (a b c d : String) (ha : doc.AwsNode = some a) (hb : doc.ClusterAutoscaler = some b)
    (hc : doc.CoreDns = some c) (hd : doc.KubeProxy = some d) :
    Read (.decoded doc) prev =
      if !IsClusterListConfigurationValid
          ⟨⟨a, b, c, d⟩, decodeClusterList prev.ClusterList doc.ClusterList⟩ then
        (some "one of the clusterlist elements has either Name, AwsRegion, AwsAccount, AwsNodeObject, ClusterAutoscalerObject, KubeProxyObject, CoreDnsObject is missing",
          ⟨⟨a, b, c, d⟩, decodeClusterList prev.ClusterList doc.ClusterList⟩)
      else (none, ⟨⟨a, b, c, d⟩, decodeClusterList prev.ClusterList doc.ClusterList⟩) := by
  simp [Read, unmarshal, ha, hb, hc, hd]

theorem decodeClusterList_document2_blank_account (previous : List ClusterListConfiguration) :
    ∃ x ∈ decodeClusterList previous testReadDocument2.ClusterList, x.AwsAccount = "" := by
  rcases previous with _ | ⟨p, _ | ⟨q, rest⟩⟩
  · exact ⟨decodeCluster zeroCluster (bareClusterDocument "cluster2" "region1" (some "")),
      by simp [testReadDocument2, decodeClusterList], rfl⟩
  · exact ⟨decodeCluster zeroCluster (bareClusterDocument "cluster2" "region1" (some "")),
      by simp [testReadDocument2, decodeClusterList], rfl⟩
  · exact ⟨decodeCluster q (bareClusterDocument "cluster2" "region1" (some "")),
      by simp [testReadDocument2, decodeClusterList], rfl⟩

theorem read_decoded_some_absent (doc : ConfigDocument) (prev : Configurations)
    (h : doc.AwsNode = none ∨ doc.CoreDns = none ∨ doc.KubeProxy = none ∨
      doc.ClusterAutoscaler = none) :
    (Read (.decoded doc) prev).1 =
      some "mandatory component version of either aws-node, coredns, kube-proxy or cluster-autoscaler not set in config file" := by
  have hcond : (doc.AwsNode.isNone || doc.CoreDns.isNone || doc.KubeProxy.isNone ||
      doc.ClusterAutoscaler.isNone) = true := by
    rcases h with h | h | h | h <;> simp [h]
  simp only [Read, hcond, if_true]

/-- C16, the claim as stated fails: the document with `coredns: ""` and otherwise the
content of the first test document is read with a nil error, and on the configuration
it populates `IsComponentVersionConfigurationsValid` returns false. -/
theorem C16_read_accepts_empty_version :
    (Read (.decoded documentEmptyCoreDns) zeroConfiguration).1 = none ∧
    IsClusterListConfigurationValid
      (Read (.decoded documentEmptyCoreDns) zeroConfiguration).2 = true ∧
    IsComponentVersionConfigurationsValid
      (Read (.decoded documentEmptyCoreDns) zeroConfiguration).2 = false := by
  refine ⟨by decide, by decide, by decide⟩

/-- C16 as amended: whenever `Read` returns nil, the file was decoded, its four
component keys are present, `IsClusterListConfigurationValid` returns true on the
configuration populated, and `IsComponentVersionConfigurationsValid` returns true on it
exactly when none of the four values is the empty string. -/
theorem C16_read_nil_guarantees (file : ConfigFile) (prev : Configurations)
    (h : (Read file prev).1 = none) :
    ∃ (doc : ConfigDocument) (a b c d : String),
      file = .decoded doc ∧
      doc.AwsNode = some a ∧ doc.ClusterAutoscaler = some b ∧
      doc.CoreDns = some c ∧ doc.KubeProxy = some d ∧
      IsClusterListConfigurationValid (Read file prev).2 = true ∧
      (IsComponentVersionConfigurationsValid (Read file prev).2 = true ↔
        a ≠ "" ∧ b ≠ "" ∧ c ≠ "" ∧ d ≠ "") := by
  cases file with
  | notFound => simp [Read] at h
  | readError => simp [Read] at h
  | unmarshalError after => simp [Read] at h
  | decoded doc =>
    cases ha : doc.AwsNode with
    | none => rw [read_decoded_some_absent doc prev (Or.inl ha)] at h; simp at h
    | some a =>
    cases hb : doc.ClusterAutoscaler with
    | none =>
      rw [read_decoded_some_absent doc prev (Or.inr (Or.inr (Or.inr hb)))] at h; simp at h
    | some b =>
    cases hc : doc.CoreDns with
    | none => rw [read_decoded_some_absent doc prev (Or.inr (Or.inl hc))] at h; simp at h
    | some c =>
    cases hd : doc.KubeProxy with
    | none =>
      rw [read_decoded_some_absent doc prev (Or.inr (Or.inr (Or.inl hd)))] at h; simp at h
    | some d =>
      refine ⟨doc, a, b, c, d, rfl, ha, hb, hc, hd, ?_⟩
      rw [read_decoded_all_present doc prev a b c d ha hb hc hd] at h ⊢
      cases hv : IsClusterListConfigurationValid
          ⟨⟨a, b, c, d⟩, decodeClusterList prev.ClusterList doc.ClusterList⟩ with
      | false => rw [hv] at h; simp at h
      | true =>
        simp only [Bool.not_true, Bool.false_eq_true, if_false]
        refine ⟨hv, ?_⟩
        rw [isComponentVersionConfigurationsValid_iff]

/-- Witness of C16 as amended: the first document of `TestRead`. -/
theorem C16_read_nil_guarantees_witness :
    (Read (.decoded testReadDocument1) zeroConfiguration).1 = none ∧
    ∃ (doc : ConfigDocument) (a b c d : String),
      ConfigFile.decoded testReadDocument1 = .decoded doc ∧
      doc.AwsNode = some a ∧ doc.ClusterAutoscaler = some b ∧
      doc.CoreDns = some c ∧ doc.KubeProxy = some d ∧
      IsClusterListConfigurationValid
        (Read (.decoded testReadDocument1) zeroConfiguration).2 = true ∧
      (IsComponentVersionConfigurationsValid
        (Read (.decoded testReadDocument1) zeroConfiguration).2 = true ↔
        a ≠ "" ∧ b ≠ "" ∧ c ≠ "" ∧ d ≠ "") :=
  ⟨by decide,
   C16_read_nil_guarantees (.decoded testReadDocument1) zeroConfiguration (by decide)⟩

/-- C17: on the second document of `TestRead` (four component keys present, second
cluster with an empty `AwsAccount`), whatever the global held before, `Read` returns
the error with the message that lists seven fields, which is not the message "one of the
clusterlist elements has either Name, AwsRegion or AwsAccount missing" that the test
expects. -/
theorem C17_read_cluster_list_message (prev : Configurations) :
    (Read (.decoded testReadDocument2) prev).1 =
      some "one of the clusterlist elements has either Name, AwsRegion, AwsAccount, AwsNodeObject, ClusterAutoscalerObject, KubeProxyObject, CoreDnsObject is missing" ∧
    (Read (.decoded testReadDocument2) prev).1 ≠
      some "one of the clusterlist elements has either Name, AwsRegion or AwsAccount missing" := by
  have hread := read_decoded_all_present testReadDocument2 prev "aws-node-version"
    "cluster-autoscaler-version" "core-dns-version" "kube-proxy-version" rfl rfl rfl rfl
  have hinvalid : IsClusterListConfigurationValid
      ⟨⟨"aws-node-version", "cluster-autoscaler-version", "core-dns-version",
        "kube-proxy-version"⟩,
        decodeClusterList prev.ClusterList testReadDocument2.ClusterList⟩ = false := by
    obtain ⟨x, hx, hblank⟩ := decodeClusterList_document2_blank_account prev.ClusterList
    rw [← Bool.not_eq_true]
    intro hvalid
    have hall := (foldl_validLoopBody_true_iff _).mp hvalid x hx
    exact hall.2.2.1 hblank
  rw [hread, hinvalid]
  refine ⟨rfl, fun h => ?_⟩
  have hmsg : "one of the clusterlist elements has either Name, AwsRegion, AwsAccount, AwsNodeObject, ClusterAutoscalerObject, KubeProxyObject, CoreDnsObject is missing" =
      "one of the clusterlist elements has either Name, AwsRegion or AwsAccount missing" :=
    Option.some.inj h
  exact absurd hmsg (by decide)

/-- C18: when the file is decoded and at least one of the four component keys is
absent, `Read` returns the error "mandatory component version of either aws-node,
coredns, kube-proxy or cluster-autoscaler not set in config file", whatever the cluster
list holds and whatever the global held before. -/
theorem C18_read_missing_component_key (doc : ConfigDocument) (prev : Configurations)
    (h : doc.AwsNode = none ∨ doc.CoreDns = none ∨ doc.KubeProxy = none ∨
      doc.ClusterAutoscaler = none) :
    (Read (.decoded doc) prev).1 =
      some "mandatory component version of either aws-node, coredns, kube-proxy or cluster-autoscaler not set in config file" :=
  read_decoded_some_absent doc prev h

/-- Witness of C18: the fourth document of `TestRead` lacks `kube-proxy`, and its
cluster list is not valid either. -/
theorem C18_read_missing_component_key_witness :
    testReadDocument4.KubeProxy = none ∧
    IsClusterListConfigurationValid (unmarshal zeroConfiguration testReadDocument4) = false ∧
    (Read (.decoded testReadDocument4) zeroConfiguration).1 =
      some "mandatory component version of either aws-node, coredns, kube-proxy or cluster-autoscaler not set in config file" :=
  ⟨rfl, by decide,
   C18_read_missing_component_key testReadDocument4 zeroConfiguration
     (Or.inr (Or.inr (Or.inl rfl)))⟩

end Config
